import Mathlib

/-!
Verification development for the proto-service generator
(`src/generator.ts`, primary whole-model variant, and
`src/unnamed/part_000`, earlier per-service variant).

The TypeScript source is shallowly embedded: the parsing functions
(`parseProto` and its regular expressions) are modelled as executable
scanners over `List Char` with the exact match semantics of the JS
regexes used in the source; the emitters are modelled as the string
templates of the source; the driver `run` is modelled as explicit
state passing over a small file-system value.
-/

namespace Gen

/-- Type `ProtoRpc` from src/generator.ts lines 100-104. -/
structure ProtoRpc where
  name : String
  inType : String
  outType : String
deriving Repr, DecidableEq

/-- Type `ProtoService` from src/generator.ts lines 95-98. -/
structure ProtoService where
  name : String
  rpcs : List ProtoRpc
deriving Repr, DecidableEq

/-- Type `ProtoParse` from src/generator.ts lines 90-93. -/
structure ProtoParse where
  packageName : String
  services : List ProtoService
deriving Repr, DecidableEq

/-- Errors thrown while parsing: `rpcError` is the `throw new Error(...)` of
src/generator.ts line 369 (no rpc-shaped line in a service block);
`typeError` is the JS TypeError raised at line 382 when
`r.services?.[0].name` reads `.name` of `undefined` (empty `services`). -/
inductive JsErr where
  | rpcError
  | typeError
deriving Repr, DecidableEq

/-- JS `\w` character class: `[A-Za-z0-9_]`. -/
def wordChar (c : Char) : Bool :=
  (c ≥ 'a' && c ≤ 'z') || (c ≥ 'A' && c ≤ 'Z') || (c ≥ '0' && c ≤ '9') || c = '_'

/-- JS `\s` character class (the whitespace characters relevant to schema
text: space, tab, newline, carriage return, vertical tab, form feed,
no-break space). -/
def spaceChar (c : Char) : Bool :=
  c = ' ' || c = '\t' || c = '\n' || c = '\r' || c = '\x0b' || c = '\x0c' || c = '\u00A0'

/-- Attempt of the regex `/package\s+(\w+)([\s\S]*?)/` (src/generator.ts
line 353) at position 0 of `l`: the literal `package`, then one or more
whitespace characters (greedy; `\s` and `\w` are disjoint so no
backtracking applies), then the captured maximal nonempty run of word
characters.  The trailing lazy group matches the empty string. -/
def pkgMatchAt (l : List Char) : Option String :=
  if ("package".data).isPrefixOf l then
    let r := l.drop 7
    let sp := r.takeWhile spaceChar
    if sp = [] then none
    else
      let w := (r.drop sp.length).takeWhile wordChar
      if w = [] then none else some (String.mk w)
  else none

/-- Model of `packageRE.exec(proto)` (src/generator.ts line 354): the regex engine
tries each start position left to right and returns the first match. -/
def pkgExec : List Char → Option String
  | [] => none
  | c :: cs =>
    match pkgMatchAt (c :: cs) with
    | some s => some s
    | none => pkgExec cs

/-- Least index `k` such that `}\n}` occurs at position `k` of `l` (the
end delimiter sought by the lazy `([\s\S]*?)}\n}` tail of the service
regex). -/
def findCloseIdx : List Char → Option Nat
  | [] => none
  | c :: cs =>
    if ("\x7d\n\x7d".data).isPrefixOf (c :: cs) then some 0
    else (findCloseIdx cs).map (· + 1)

/-- Attempt of the service regex `/service\s+(\w+)([\s\S]*?)}\n}/mg`
(src/generator.ts line 360) at position 0 of `l`.  Literal `service`,
`\s+` (greedy, disjoint from `\w`), the captured maximal word run (the
greedy `\w+` always prefers the maximal run since the following group
matches anything), then the lazy group: the smallest extension ending at
the first occurrence of `}\n}`.  Returns the captured name, the whole
match `m[0]`, and the suffix of `l` after the match (`lastIndex`
semantics). -/
def svcMatchAt (l : List Char) : Option (String × List Char × List Char) :=
  if ("service".data).isPrefixOf l then
    let r := l.drop 7
    let sp := r.takeWhile spaceChar
    if sp = [] then none
    else
      let w := (r.drop sp.length).takeWhile wordChar
      if w = [] then none
      else
        let body := (r.drop sp.length).drop w.length
        match findCloseIdx body with
        | none => none
        | some k =>
          let n := 7 + sp.length + w.length + k + 3
          some (String.mk w, l.take n, l.drop n)
  else none

/-- One `servicesRE.exec(proto)` step: scan start positions left to
right from the current `lastIndex` suffix. -/
def svcExec : List Char → Option (String × List Char × List Char)
  | [] => none
  | c :: cs =>
    match svcMatchAt (c :: cs) with
    | some r => some r
    | none => svcExec cs


/-- The repeated-`exec` loop of src/generator.ts line 363, collecting
`(m[1], m[0])` for every service match.  The loop is driven by an
explicit fuel argument for structural recursion; every successful match
consumes at least the 12 characters `service`+space+name+`}\n}`, so
`l.length + 1` steps always suffice. -/
def serviceMatchesGo : Nat → List Char → List (String × List Char)
  | 0, _ => []
  | fuel + 1, l =>
    match svcExec l with
    | none => []
    | some (nm, m0, rest) => (nm, m0) :: serviceMatchesGo fuel rest

/-- All matches of `servicesRE` over the schema text. -/
def serviceMatches (l : List Char) : List (String × List Char) :=
  serviceMatchesGo (l.length + 1) l

/-- Attempt of the rpc regex
`/rpc\s+(\w+)\((\S+)\)\s+returns\s+\((\S+)\)\s+\{}/` (src/generator.ts
line 366) at position 0 of `l`.  The backtracking of `(\S+)\)` resolves
deterministically: the maximal nonspace run after `(` must have at
least two characters and end with `)` (any shorter split leaves a
nonspace character where the following `\s+` must match).  Returns the
captured groups, the whole match `m[0]`, and the suffix after the
match. -/
def rpcMatchAt (l : List Char) : Option (ProtoRpc × List Char × List Char) :=
  if ("rpc".data).isPrefixOf l then
    let r1 := l.drop 3
    let sp1 := r1.takeWhile spaceChar
    if sp1 = [] then none
    else
      let r2 := r1.drop sp1.length
      let nm := r2.takeWhile wordChar
      if nm = [] then none
      else
        match r2.drop nm.length with
        | '(' :: r4 =>
          let run1 := r4.takeWhile (fun c => !(spaceChar c))
          if run1.length < 2 then none
          else if run1.getLast? ≠ some ')' then none
          else
            let r5 := r4.drop run1.length
            let sp2 := r5.takeWhile spaceChar
            if sp2 = [] then none
            else
              let r6 := r5.drop sp2.length
              if ("returns".data).isPrefixOf r6 then
                let r7 := r6.drop 7
                let sp3 := r7.takeWhile spaceChar
                if sp3 = [] then none
                else
                  match (r7.drop sp3.length) with
                  | '(' :: r9 =>
                    let run2 := r9.takeWhile (fun c => !(spaceChar c))
                    if run2.length < 2 then none
                    else if run2.getLast? ≠ some ')' then none
                    else
                      let r10 := r9.drop run2.length
                      let sp4 := r10.takeWhile spaceChar
                      if sp4 = [] then none
                      else
                        match r10.drop sp4.length with
                        | '\x7b' :: '\x7d' :: r12 =>
                          some (⟨String.mk nm, String.mk run1.dropLast,
                                  String.mk run2.dropLast⟩,
                                l.take (l.length - r12.length), r12)
                        | _ => none
                  | _ => none
              else none
        | _ => none
  else none

/-- One step of a global `rpcRE` scan: try each start position left to
right. -/
def rpcExec : List Char → Option (ProtoRpc × List Char × List Char)
  | [] => none
  | c :: cs =>
    match rpcMatchAt (c :: cs) with
    | some r => some r
    | none => rpcExec cs

/-- Model of `m[0].match(rpcRE)` with the global flag (src/generator.ts line
367): the list of matched substrings `m[0]`, scanning non-overlapping
matches left to right; the empty list models the `null` result JS
returns when there is no match.  Fuel-driven as `serviceMatchesGo`. -/
def rpcMatchesGo : Nat → List Char → List (List Char)
  | 0, _ => []
  | fuel + 1, l =>
    match rpcExec l with
    | none => []
    | some (_, m0, rest) => m0 :: rpcMatchesGo fuel rest

/-- All matches of `rpcRE` over one service block. -/
def rpcMatches (l : List Char) : List (List Char) :=
  rpcMatchesGo (l.length + 1) l

/-- Model of `line.match(rpcLineRE)` (src/generator.ts line 374): first match of
the rpc regex over one already-matched line, yielding the three capture
groups. -/
def rpcFirstGroups (l : List Char) : Option ProtoRpc :=
  (rpcExec l).map (·.1)

/-- The arrow function of src/generator.ts lines 372-380: rebuild a
`ProtoRpc` from one matched line.  When the re-match fails JS silently
produces `undefined` fields (`m?.[1]` on a `null` match); in the
generated templates `undefined` interpolates as the string
`"undefined"`, which is how the (unreachable) fallback is modelled. -/
def rpcLineParse (l : List Char) : ProtoRpc :=
  match rpcFirstGroups l with
  | some g => g
  | none => ⟨"undefined", "undefined", "undefined"⟩

/-- The body of the `while` loop of src/generator.ts lines 363-385,
one iteration per service match, threading `r.packageName` and
`r.services`.  The default-fill of `packageName` (lines 381-383) reads
`r.services?.[0].name` BEFORE the current service is pushed; when
`services` is still empty this is `undefined.name`, a thrown
TypeError. -/
def parseGo : String → List ProtoService → List (String × List Char) →
    Except JsErr ProtoParse
  | pkgName, acc, [] => .ok ⟨pkgName, acc⟩
  | pkgName, acc, (nm, m0) :: ms =>
    let lines := rpcMatches m0
    if lines = [] then .error .rpcError
    else
      let rpcs := lines.map rpcLineParse
      if pkgName = "" then
        match acc[0]? with
        | none => .error .typeError
        | some s0 => parseGo s0.name (acc ++ [⟨nm, rpcs⟩]) ms
      else parseGo pkgName (acc ++ [⟨nm, rpcs⟩]) ms

/-- Function `parseProto` (src/generator.ts lines 348-387) on the text of the
schema file (the file read itself is external I/O). -/
def parseProto (text : List Char) : Except JsErr ProtoParse :=
  let pkg := match pkgExec text with
    | some p => p
    | none => ""
  parseGo pkg [] (serviceMatches text)

/-- JS `String.prototype.toLowerCase()` on the identifier strings the
generator lowers (character-wise ASCII-style lowering, the behaviour of
`toLowerCase` on `\w`-captured names). -/
def jsToLower (s : String) : String := String.mk (s.data.map Char.toLower)

/-! ### Naming and import resolution (src/generator.ts lines 131-160) -/

/-- The dedup `types.filter((e, idx) => types.indexOf(e) === idx)` (src/generator.ts
lines 132-134): keep every value that sits at its own first-occurrence
index, i.e. first-seen deduplication. -/
def jsDedup (types : List String) : List String :=
  (types.enum.filter (fun p => types.indexOf p.2 == p.1)).map Prod.snd

/-- Model of `Array.prototype.sort()` with the default comparator, which orders
strings ascending; for a consistent comparator ECMA-262 specifies the
result is the sorted permutation, so any correct sort models it. -/
def jsSort (l : List String) : List String := List.insertionSort (· ≤ ·) l

/-- The resolution pipeline inlined in `generateImport`: dedup then
sort. -/
def resolveTypes (types : List String) : List String := jsSort (jsDedup types)

/-- Function `generateImport` (src/generator.ts lines 131-136). -/
def generateImport (types : List String) (protoLibName : String) : String :=
  "import \x7b " ++ String.intercalate ", " (resolveTypes types) ++
    " \x7d from \"./" ++ protoLibName ++ ".js\";"

/-- The per-rpc type collection of `generateServiceImports`
(src/generator.ts line 144): push `outType` then `inType` for each
rpc, in encounter order. -/
def collectTypes (rpcs : List ProtoRpc) : List String :=
  rpcs.flatMap (fun r => [r.outType, r.inType])

/-- Function `generateServiceImports` (src/generator.ts lines 138-147). -/
def generateServiceImports (srv : ProtoService) (protoLibName : String) : String :=
  generateImport (collectTypes srv.rpcs) protoLibName

/-- The whole-model type collection of `generateAllProtoImports`
(src/generator.ts lines 153-158). -/
def allTypes (parse : ProtoParse) : List String :=
  parse.services.flatMap (fun s => collectTypes s.rpcs)

/-- Function `generateAllProtoImports` (src/generator.ts lines 149-160). -/
def generateAllProtoImports (parse : ProtoParse) (protoLibName : String) : String :=
  generateImport (allTypes parse) protoLibName

/-! ### Artifact emitters (src/generator.ts lines 162-346) -/

/-- Model of `Array.prototype.join("\n")`, used by every emitter to assemble its
sections. -/
def joinNL : List String → String
  | [] => ""
  | [x] => x
  | x :: xs => x ++ "\n" ++ joinNL xs

/-- Function `generateHandler` (src/generator.ts lines 162-169). -/
def generateHandler (h : ProtoRpc) : String :=
  "\n    export function " ++ h.name ++ "Handler(r: " ++ h.inType ++
    "): Promise<" ++ h.outType ++
    ">\x7b\n        // add your code here\n        return Promise.reject(new Error(\"not implemented\"));\n    \x7d\n"

/-- Function `generateHandlerImport` (src/generator.ts lines 171-176). -/
def generateHandlerImport (fn : String) (parse : ProtoService) : String :=
  "import \x7b " ++ parse.name ++ " \x7d from \"./" ++ jsToLower fn ++ "_handlers.js\";"

/-- Function `createService` (src/generator.ts lines 178-189). -/
def createService (srv : ProtoParse) : String :=
  "const nc = await connect();\nconst srv = await nc.services.add(\x7b\n  name: \"" ++
    srv.packageName ++
    "\",\n  version: \"0.0.1\",\n\x7d);\n\nsrv.stopped.then((err) => \x7b\n  console.log(\"service stopped:\", err?.message);\n\x7d);\n"

/-- Function `addEndpoint` (src/generator.ts lines 191-208): the endpoint is
registered on the service group variable under the rpc name, and the
handler is invoked as `<serviceName>.<rpcName>Handler`. -/
def addEndpoint (srv : ProtoService) (h : ProtoRpc) : String :=
  jsToLower srv.name ++ ".addEndpoint(\"" ++ h.name ++
    "\", (err, m) => \x7b\n  // if we get an error from the subscription, stop\n  if(err) \x7b\n    srv.stop(err);\n    return;\n  \x7d\n  const input = " ++
    h.inType ++ ".decode(m?.data);\n  " ++ srv.name ++ "." ++ h.name ++
    "Handler(input)\n    .then((o) => \x7b\n      m.respond(" ++ h.outType ++
    ".encode(o).finish())\n    \x7d)\n    .catch((err) => \x7b\n      m.respondError(500, err.message);\n    \x7d);\n\x7d);\n"

/-- The sections array built by `generateStubs` (src/generator.ts lines
210-226). -/
def generateStubsSections (service : ProtoService) (genLibPath : String) : List String :=
  ["// edit your services here", generateServiceImports service genLibPath,
   "export namespace " ++ service.name ++ " \x7b"]
  ++ service.rpcs.map generateHandler
  ++ ["\x7d"]

/-- The handler-stub file text written by `generateStubs`. -/
def generateStubsText (service : ProtoService) (genLibPath : String) : String :=
  joinNL (generateStubsSections service genLibPath)

/-- The leading comment of `generateMain` (src/generator.ts lines
233-242). -/
def mainHeader (parse : ProtoParse) : String :=
  "\n// This file implements the NATS service portion of your service.\n// The handlers for the various operations are defined in\n// <service>_handlers.ts file.\n// To build the service run: \x27npm run generate\x27\n// To start the service do: \x27node " ++
    jsToLower parse.packageName ++
    "_service.js\x27\n//\n// THE CONTENTS OF FILE IS GENERATED AND SHOULDN\x27T BE EDITED\n// THIS TECHNOLOGY IS EXPERIMENTAL USE AT YOUR OWN RISK\n"

/-- src/generator.ts line 243. -/
def natsImportLine : String := "import \x7b connect, ServiceError \x7d from \"nats\";"

/-- The per-service group registration pushed by `generateMain`
(src/generator.ts lines 254-256): the wiring adds a group named after
the service, so every endpoint added below it is addressed as
`<serviceName>.<endpointName>`. -/
def groupLine (srv : ProtoService) : String :=
  "const " ++ jsToLower srv.name ++ " = srv.addGroup(\"" ++ srv.name ++ "\");"

/-- The sections array built by `generateMain` (src/generator.ts lines
228-266). -/
def generateMainSections (parse : ProtoParse) (genLibPath : String) : List String :=
  [mainHeader parse, natsImportLine, generateAllProtoImports parse genLibPath]
  ++ parse.services.map (fun srv => generateHandlerImport srv.name srv)
  ++ [createService parse]
  ++ parse.services.flatMap (fun srv => groupLine srv :: srv.rpcs.map (addEndpoint srv))

/-- The wiring-module text written by `generateMain`. -/
def generateMainText (parse : ProtoParse) (genLibPath : String) : String :=
  joinNL (generateMainSections parse genLibPath)

/-- The generated-file banner of `generateClient` (src/generator.ts
lines 316-318). -/
def clientHeader : String :=
  "// THE CONTENTS OF FILE IS GENERATED AND SHOULDN\x27T BE EDITED\n// THIS TECHNOLOGY IS EXPERIMENTAL USE AT YOUR OWN RISK\n"

/-- src/generator.ts line 320. -/
def clientNatsImportLine : String := "import \x7b NatsConnection, ServiceError \x7d from \"nats\""

/-- The class opening pushed per service by `generateClient`
(src/generator.ts lines 323-329). -/
def classOpen (srv : ProtoService) : String :=
  "\nexport class " ++ srv.name ++
    "Client \x7b\n  nc: NatsConnection;\n  constructor(nc: NatsConnection) \x7b\n    this.nc = nc;\n  \x7d\n"

/-- The method pushed per rpc by `generateClient` (src/generator.ts
lines 330-338): a method named after the rpc, requesting subject
`<serviceName>.<rpcName>`. -/
def clientMethod (srv : ProtoService) (rpc : ProtoRpc) : String :=
  "  async " ++ rpc.name ++ "(data: " ++ rpc.inType ++ "): Promise<" ++
    rpc.outType ++ "> \x7b\n    const r = await this.nc.request(\"" ++ srv.name ++
    "." ++ rpc.name ++ "\", " ++ rpc.inType ++
    ".encode(data).finish());\n    return " ++ rpc.outType ++ ".decode(r.data);\n  \x7d\n"

/-- The parts array built by `generateClient` (src/generator.ts lines
310-346). -/
def generateClientSections (parse : ProtoParse) (protoLibName : String) : List String :=
  [clientHeader, generateAllProtoImports parse protoLibName, clientNatsImportLine]
  ++ parse.services.flatMap
      (fun srv => classOpen srv :: srv.rpcs.map (clientMethod srv) ++ ["\x7d"])

/-- The client-module text written by `generateClient`. -/
def generateClientText (parse : ProtoParse) (protoLibName : String) : String :=
  joinNL (generateClientSections parse protoLibName)

/-! ### Project config emitters (src/generator.ts lines 268-308) -/

/-- Values serializable by `JSON.stringify`, enough for the two config
objects. -/
inductive Jval where
  | str (s : String)
  | bool (b : Bool)
  | arr (l : List Jval)
  | obj (fields : List (String × Jval))
deriving Repr

/-- Object field access, for stating facts about the emitted configs. -/
def Jval.getField (v : Jval) (k : String) : Option Jval :=
  match v with
  | .obj fs => fs.lookup k
  | _ => none

/-- The `pkg` object of `generateNodePackage` (src/generator.ts lines
268-292). -/
def nodePackage (protoName : String) : Jval :=
  .obj [("name", .str "service"), ("version", .str "1.0.0"),
        ("description", .str ""), ("main", .str "index.js"),
        ("type", .str "module"),
        ("scripts", .obj
          [("build", .str
            ("protoc --plugin=./node_modules/.bin/protoc-gen-ts_proto --ts_proto_opt=importSuffix=.js --ts_proto_opt=esModuleInterop=true --ts_proto_out=. ./" ++
              protoName ++ " && tsc")),
           ("test", .str "echo \"Error: no test specified\" && exit 1")]),
        ("dependencies", .obj
          [("ts-proto", .str "^1.137.0"), ("typescript", .str "^4.9.4"),
           ("nats", .str "^2.13.1")]),
        ("keywords", .arr []), ("author", .str ""), ("license", .str "ISC")]

/-- The `config` object of `generateTscConfig` (src/generator.ts lines
294-308). -/
def tscConfig : Jval :=
  .obj [("compilerOptions", .obj
    [("target", .str "esnext"), ("lib", .arr []), ("module", .str "esnext"),
     ("esModuleInterop", .bool true),
     ("forceConsistentCasingInFileNames", .bool true), ("strict", .bool true),
     ("moduleResolution", .str "node"), ("skipLibCheck", .bool true)])]

end Gen

namespace Part000
open Gen

/-- The `pkg` object of `generateNodePackage` in the per-service variant
(src/unnamed/part_000 lines 240-263): same shape, but its
`dependencies` list only `ts-proto` and `typescript` - the `nats`
transport dependency of the primary variant is absent, even though the
wiring file this variant emits imports from `"nats"` (line 229). -/
def nodePackage (protoName : String) : Jval :=
  .obj [("name", .str "service"), ("version", .str "1.0.0"),
        ("description", .str ""), ("main", .str "index.js"),
        ("type", .str "module"),
        ("scripts", .obj
          [("build", .str
            ("protoc --plugin=./node_modules/.bin/protoc-gen-ts_proto --ts_proto_opt=importSuffix=.js --ts_proto_opt=esModuleInterop=true --ts_proto_out=. ./" ++
              protoName ++ " && tsc")),
           ("test", .str "echo \"Error: no test specified\" && exit 1")]),
        ("dependencies", .obj
          [("ts-proto", .str "^1.137.0"), ("typescript", .str "^4.9.4")]),
        ("keywords", .arr []), ("author", .str ""), ("license", .str "ISC")]

end Part000

namespace Gen

/-! ### The driver `run` (src/generator.ts lines 12-63) over an explicit
file-system value -/

/-- Contents of a file: `save` writes text, `saveJSON` writes a
serialized object (`JSON.stringify` is injective on these objects, so
the object itself is stored). -/
inductive FileData where
  | text (s : String)
  | json (v : Jval)
deriving Repr

/-- A file system: existing directories and files.  Writes prepend, and
`lookup` sees the most recent write, so the list also records how many
write events hit a path. -/
structure FS where
  dirs : List String
  files : List (String × FileData)

/-- Function `exists` (src/generator.ts lines 106-116): `Deno.stat` succeeds on
files and directories alike. -/
def statExists (fs : FS) (p : String) : Bool :=
  fs.dirs.contains p || (fs.files.lookup p).isSome

/-- Functions `save` and `Deno.writeTextFile`: (over)write a path. -/
def saveFile (fs : FS) (p : String) (d : FileData) : FS :=
  ⟨fs.dirs, (p, d) :: fs.files⟩

/-- Model of `join(dir, name)` of the path library for a directory and a plain
file name. -/
def joinPath (dir nm : String) : String := dir ++ "/" ++ nm

/-- Run-level failures: a parse failure thrown out of `parseProto`, the
`--force` rejection of src/generator.ts line 30, or a failed
`Deno.readTextFile` inside `copy`. -/
inductive RunErr where
  | parseFail (e : JsErr)
  | alreadyExists
  | copyFail
deriving Repr, DecidableEq

/-- The per-service loop of `run` (src/generator.ts lines 43-53): check
`<s.name>_handlers.ts` (original casing), back it up to
`<jsToLower s.nameCase()>_handlers.bak` when present and `clobber` is
set, then let `generateStubs` write
`<jsToLower s.nameCase()>_handlers.ts`. -/
def runServices (outDir genLib : String) (clobber : Bool) :
    FS → List ProtoService → FS × Option RunErr
  | fs, [] => (fs, none)
  | fs, s :: ss =>
    let handlersPath := joinPath outDir (s.name ++ "_handlers.ts")
    if statExists fs handlersPath && clobber then
      match fs.files.lookup handlersPath with
      | none => (fs, some .copyFail)
      | some d =>
        let fs1 := saveFile fs (joinPath outDir (jsToLower s.name ++ "_handlers.bak")) d
        let fs2 := saveFile fs1 (joinPath outDir (jsToLower s.name ++ "_handlers.ts"))
          (.text (generateStubsText s genLib))
        runServices outDir genLib clobber fs2 ss
    else
      let fs2 := saveFile fs (joinPath outDir (jsToLower s.name ++ "_handlers.ts"))
        (.text (generateStubsText s genLib))
      runServices outDir genLib clobber fs2 ss

/-- The `run` callback (src/generator.ts lines 12-63), after flag
reading: parse the schema text, reject an existing output directory
unless forced (creating it when absent), copy the schema file, generate
stubs per service, then the wiring, client, package manifest and
compiler config.  `protoName` is `basename(protoPath)` and `genLib` its
extension-less form (lines 22-25, path manipulation of the external
path library). -/
def runGen (fs0 : FS) (outDir protoName genLib protoText : String)
    (clobber : Bool) : FS × Option RunErr :=
  match parseProto protoText.data with
  | .error e => (fs0, some (.parseFail e))
  | .ok parse =>
    if statExists fs0 outDir && !clobber then (fs0, some .alreadyExists)
    else
      let fs1 : FS := if statExists fs0 outDir then fs0 else ⟨outDir :: fs0.dirs, fs0.files⟩
      let fs2 := saveFile fs1 (joinPath outDir protoName) (.text protoText)
      match runServices outDir genLib clobber fs2 parse.services with
      | (fsE, some e) => (fsE, some e)
      | (fs3, none) =>
        let fs4 := saveFile fs3 (joinPath outDir (jsToLower parse.packageName ++ "_service.ts"))
          (.text (generateMainText parse genLib))
        let fs5 := saveFile fs4 (joinPath outDir (jsToLower parse.packageName ++ "_clients.ts"))
          (.text (generateClientText parse genLib))
        let fs6 := saveFile fs5 (joinPath outDir "package.json") (.json (nodePackage protoName))
        let fs7 := saveFile fs6 (joinPath outDir "tsconfig.json") (.json tscConfig)
        (fs7, none)

end Gen

namespace Gen

/-! ### Supporting lemmas -/

theorem mem_jsDedup {x : String} {l : List String} : x ∈ jsDedup l ↔ x ∈ l := by
  constructor
  · intro hx
    unfold jsDedup at hx
    rcases List.mem_map.1 hx with ⟨p, hp, rfl⟩
    have h2 : p.2 ∈ List.map Prod.snd l.enum :=
      List.mem_map_of_mem _ (List.mem_filter.1 hp).1
    rwa [List.enum_map_snd] at h2
  · intro hx
    unfold jsDedup
    refine List.mem_map.2 ⟨(l.indexOf x, x), List.mem_filter.2 ⟨?_, ?_⟩, rfl⟩
    · exact List.mk_mem_enum_iff_getElem?.2 (List.getElem?_indexOf hx)
    · simp

theorem nodup_jsDedup (l : List String) : (jsDedup l).Nodup := by
  unfold jsDedup
  apply List.Nodup.map_on
  · intro p hp q hq heq
    have hpi : l.indexOf p.2 = p.1 := by
      have := (List.mem_filter.1 hp).2; simpa using this
    have hqi : l.indexOf q.2 = q.1 := by
      have := (List.mem_filter.1 hq).2; simpa using this
    have h1 : p.1 = q.1 := by rw [← hpi, ← hqi, heq]
    exact Prod.ext h1 heq
  · apply List.Nodup.filter
    have hfst : (l.enum.map Prod.fst).Nodup := by
      rw [List.enum_map_fst]; exact List.nodup_range _
    exact List.Nodup.of_map _ hfst

theorem jsDedup_of_nodup {l : List String} (h : l.Nodup) : jsDedup l = l := by
  unfold jsDedup
  have hf : l.enum.filter (fun p => l.indexOf p.2 == p.1) = l.enum := by
    apply List.filter_eq_self.2
    intro p hp
    obtain ⟨i, x⟩ := p
    have hg : l[i]? = some x := List.mk_mem_enum_iff_getElem?.1 hp
    rcases List.getElem?_eq_some.1 hg with ⟨hi, hix⟩
    have hxmem : x ∈ l := hix ▸ l.getElem_mem hi
    have hlt : l.indexOf x < l.length := List.indexOf_lt_length.2 hxmem
    have hgi : l[l.indexOf x] = x := List.getElem_indexOf hlt
    have : l.indexOf x = i := (h.getElem_inj_iff).1 (hgi.trans hix.symm)
    simp [this]
  rw [hf, List.enum_map_snd]

theorem resolveTypes_sorted (l : List String) :
    (resolveTypes l).Sorted (· ≤ ·) :=
  List.sorted_insertionSort _ _

theorem resolveTypes_nodup (l : List String) : (resolveTypes l).Nodup :=
  (List.perm_insertionSort _ _).nodup_iff.2 (nodup_jsDedup l)

theorem mem_resolveTypes {x : String} {l : List String} :
    x ∈ resolveTypes l ↔ x ∈ l := by
  unfold resolveTypes jsSort
  rw [(List.perm_insertionSort _ _).mem_iff, mem_jsDedup]

theorem resolveTypes_perm {l₁ l₂ : List String} (h : l₁.Perm l₂) :
    resolveTypes l₁ = resolveTypes l₂ := by
  have hmid : List.Perm (jsDedup l₁) (jsDedup l₂) :=
    List.perm_of_nodup_nodup_toFinset_eq (nodup_jsDedup _) (nodup_jsDedup _)
      (by ext x; simp [List.mem_toFinset, mem_jsDedup, h.mem_iff])
  refine List.eq_of_perm_of_sorted ?_ (resolveTypes_sorted l₁) (resolveTypes_sorted l₂)
  exact ((List.perm_insertionSort _ _).trans hmid).trans
    (List.perm_insertionSort _ _).symm

theorem resolveTypes_idem (l : List String) :
    resolveTypes (resolveTypes l) = resolveTypes l := by
  show jsSort (jsDedup (resolveTypes l)) = resolveTypes l
  rw [jsDedup_of_nodup (resolveTypes_nodup l)]
  exact List.Sorted.insertionSort_eq (resolveTypes_sorted l)

theorem joinNL_mem_decomp {x : String} {l : List String} (h : x ∈ l) :
    ∃ a b, joinNL l = a ++ x ++ b := by
  induction l with
  | nil => cases h
  | cons y ys ih =>
    rcases List.mem_cons.1 h with rfl | hy
    · cases ys with
      | nil =>
        exact ⟨"", "", by simp [joinNL]⟩
      | cons z zs =>
        exact ⟨"", "\n" ++ joinNL (z :: zs),
          by simp [joinNL, String.append_assoc]⟩
    · rcases ih hy with ⟨a, b, hab⟩
      cases ys with
      | nil => cases hy
      | cons z zs =>
        refine ⟨y ++ "\n" ++ a, b, ?_⟩
        show joinNL (y :: z :: zs) = y ++ "\n" ++ a ++ x ++ b
        rw [show joinNL (y :: z :: zs) = y ++ "\n" ++ joinNL (z :: zs) from rfl,
          hab]
        simp [String.append_assoc]

theorem joinNL_append {l₁ l₂ : List String} (h₁ : l₁ ≠ []) (h₂ : l₂ ≠ []) :
    joinNL (l₁ ++ l₂) = joinNL l₁ ++ "\n" ++ joinNL l₂ := by
  induction l₁ with
  | nil => cases h₁ rfl
  | cons x xs ih =>
    cases xs with
    | nil =>
      cases l₂ with
      | nil => cases h₂ rfl
      | cons z zs => simp [joinNL]
    | cons y ys =>
      have hrec := ih (by simp)
      show joinNL (x :: ((y :: ys) ++ l₂)) = joinNL (x :: y :: ys) ++ "\n" ++ joinNL l₂
      rw [show joinNL (x :: ((y :: ys) ++ l₂)) =
            x ++ "\n" ++ joinNL ((y :: ys) ++ l₂) from rfl, hrec,
        show joinNL (x :: y :: ys) = x ++ "\n" ++ joinNL (y :: ys) from rfl]
      simp [String.append_assoc]

/-- Splice a decomposition of one section into a decomposition of the
joined file text. -/
theorem joinNL_contains {sec pat pre suf : String} {l : List String}
    (hmem : sec ∈ l) (hsec : sec = pre ++ pat ++ suf) :
    ∃ a b, joinNL l = a ++ pat ++ b := by
  rcases joinNL_mem_decomp hmem with ⟨a, b, hab⟩
  exact ⟨a ++ pre, suf ++ b, by rw [hab, hsec]; simp [String.append_assoc]⟩

end Gen

namespace Gen

/-! ### Concrete inputs shared by the theorems below -/

/-- A well-formed schema: a package declaration and one service with one
rpc. -/
def calcProto : String :=
  "package Calc;\nservice Calc \x7b\n  rpc Add(AddRequest) returns (CalcResponse) \x7b\x7d\n\x7d\n\x7d\n"

/-- The same service block with no package declaration anywhere. -/
def noPkgProto : String :=
  "service Calc \x7b\n  rpc Add(AddRequest) returns (CalcResponse) \x7b\x7d\n\x7d\n\x7d\n"

/-- A schema with a package declaration and a message but no service
block. -/
def msgOnlyProto : String := "package demo;\nmessage Temperature \x7b\x7d\n"

def addRpc : ProtoRpc := ⟨"Add", "AddRequest", "CalcResponse"⟩

/-- The parsed model of `calcProto`. -/
def calcService : ProtoService := ⟨"Calc", [addRpc]⟩

def calcParse : ProtoParse := ⟨"Calc", [calcService]⟩

def outDirC : String := "generated"
def protoNameC : String := "calc.proto"
def genLibC : String := "calc"

/-! ### Claims -/

/-- C2, counterexample: on schema text with no service block
(`serviceMatches` finds nothing), `parseProto` does NOT throw - it
returns a model with an empty `services` list, so the claim that
extraction fails with a ParseError is false at this input. -/
theorem no_service_parse_counterexample :
    serviceMatches msgOnlyProto.data = [] ∧
    parseProto msgOnlyProto.data = Except.ok ⟨"demo", []⟩ :=
  ⟨rfl, rfl⟩

/-- Helper: with no service match the loop body never runs. -/
theorem parseProto_no_service (text : List Char)
    (h : serviceMatches text = []) :
    parseProto text = Except.ok ⟨(pkgExec text).getD "", []⟩ := by
  unfold parseProto
  rw [h]
  cases hp : pkgExec text <;> simp [parseGo, Option.getD]

/-- C2, amended: for every schema text in which the service-block
pattern matches nothing, extraction succeeds and returns a model whose
service list is empty (and whose packageName is the package-scan
capture, or empty). -/
theorem no_service_parse_returns_empty_model (text : List Char)
    (h : serviceMatches text = []) :
    parseProto text = Except.ok ⟨(pkgExec text).getD "", []⟩ :=
  parseProto_no_service text h

theorem no_service_parse_returns_empty_model_witness :
    parseProto [] = Except.ok ⟨"", []⟩ :=
  no_service_parse_returns_empty_model [] rfl

/-- C3: on a schema with a service block but no package declaration the
claimed default (`packageName` = first service name) never happens:
the default-fill at src/generator.ts line 382 dereferences
`r.services[0]` before the first service is pushed, so `parseProto`
throws a TypeError and the run aborts. -/
theorem parse_missing_package_type_error :
    parseProto noPkgProto.data = Except.error JsErr.typeError ∧
    (serviceMatches noPkgProto.data).length = 1 ∧
    pkgExec noPkgProto.data = none :=
  ⟨rfl, rfl, rfl⟩

/-- C5: when the output directory already exists and the force flag is
false, the run fails and the file system is returned exactly as it was
- nothing, including the schema provenance copy, is written; when the
schema parses, the error is precisely the already-exists rejection. -/
theorem run_existing_out_dir_rejected (fs0 : FS)
    (outDir protoName genLib protoText : String)
    (hex : statExists fs0 outDir = true) :
    ∃ e, runGen fs0 outDir protoName genLib protoText false = (fs0, some e) ∧
      (∀ p, parseProto protoText.data = Except.ok p → e = RunErr.alreadyExists) := by
  unfold runGen
  cases hp : parseProto protoText.data with
  | error e =>
    exact ⟨RunErr.parseFail e, rfl, fun p h => nomatch h⟩
  | ok p =>
    refine ⟨RunErr.alreadyExists, ?_, fun _ _ => rfl⟩
    simp [hex]

def c5FS : FS := ⟨[outDirC], []⟩

theorem run_existing_out_dir_rejected_witness :
    statExists c5FS outDirC = true ∧
    (∃ e, runGen c5FS outDirC protoNameC genLibC calcProto false = (c5FS, some e) ∧
      (∀ p, parseProto calcProto.data = Except.ok p → e = RunErr.alreadyExists)) :=
  ⟨rfl, run_existing_out_dir_rejected c5FS outDirC protoNameC genLibC calcProto rfl⟩

end Gen

namespace Gen

/-- A nonempty word capture is a nonempty string. -/
theorem mk_ne_empty {w : List Char} (h : w ≠ []) : String.mk w ≠ "" :=
  fun he => h (congrArg String.data he)

theorem pkgMatchAt_ne_empty {l : List Char} {s : String}
    (h : pkgMatchAt l = some s) : s ≠ "" := by
  unfold pkgMatchAt at h
  split at h
  · dsimp only at h
    split at h
    · cases h
    · split at h
      · cases h
      · next hw =>
        cases h
        exact mk_ne_empty hw
  · cases h

theorem pkgExec_some_ne_empty : ∀ {text : List Char} {s : String},
    pkgExec text = some s → s ≠ ""
  | [], _, h => nomatch h
  | c :: cs, s, h => by
    unfold pkgExec at h
    cases hm : pkgMatchAt (c :: cs) with
    | some t =>
      rw [hm] at h
      cases h
      exact pkgMatchAt_ne_empty hm
    | none =>
      rw [hm] at h
      exact pkgExec_some_ne_empty h

/-- A service block with no rpc-shaped line makes the parse loop fail:
it throws the rpc parse error when it reaches the block, or - when the
package name is still empty - the TypeError of the misplaced
default-fill first.  Either way no model is produced. -/
theorem parseGo_error_of_bad_block :
    ∀ (ms : List (String × List Char)) (pkgName : String)
      (acc : List ProtoService) (nm : String) (m0 : List Char),
      (nm, m0) ∈ ms → rpcMatches m0 = [] →
      (∃ e, parseGo pkgName acc ms = Except.error e) ∧
      (pkgName ≠ "" → parseGo pkgName acc ms = Except.error JsErr.rpcError) := by
  intro ms
  induction ms with
  | nil => intro _ _ _ _ hmem _; cases hmem
  | cons hd tl ih =>
    intro pkgName acc nm m0 hmem hr
    obtain ⟨nm', m0'⟩ := hd
    rcases List.mem_cons.1 hmem with heq | htl
    · cases heq
      exact ⟨⟨JsErr.rpcError, by simp [parseGo, hr]⟩,
        fun _ => by simp [parseGo, hr]⟩
    · by_cases hbad : rpcMatches m0' = []
      · exact ⟨⟨JsErr.rpcError, by simp [parseGo, hbad]⟩,
          fun _ => by simp [parseGo, hbad]⟩
      · by_cases hpk : pkgName = ""
        · subst hpk
          cases hacc : acc[0]? with
          | none =>
            refine ⟨⟨JsErr.typeError, ?_⟩, fun hne => absurd rfl hne⟩
            simp [parseGo, hbad, hacc]
          | some s0 =>
            have hrec := ih s0.name
              (acc ++ [⟨nm', (rpcMatches m0').map rpcLineParse⟩]) nm m0 htl hr
            refine ⟨?_, fun hne => absurd rfl hne⟩
            rcases hrec.1 with ⟨e, he⟩
            exact ⟨e, by simp only [parseGo, hbad, hacc, if_neg, if_pos,
              reduceIte]; simpa [hbad, hacc] using he⟩
        · have hrec := ih pkgName
            (acc ++ [⟨nm', (rpcMatches m0').map rpcLineParse⟩]) nm m0 htl hr
          constructor
          · rcases hrec.1 with ⟨e, he⟩
            exact ⟨e, by simpa [parseGo, hbad, hpk] using he⟩
          · intro hne
            have h2 := hrec.2 hne
            simpa [parseGo, hbad, hpk] using h2

/-- C6: a service block in which no line has the recognized rpc shape
makes extraction fail - when the pre-scan found a package declaration
the failure is exactly the rpc ParseError; without one the run still
aborts (with the TypeError already reported for C3), and in no case is
a service with an empty rpc list produced. -/
theorem service_without_rpcs_parse_fails (text : List Char) (nm : String)
    (m0 : List Char) (hmem : (nm, m0) ∈ serviceMatches text)
    (hr : rpcMatches m0 = []) :
    (∃ e, parseProto text = Except.error e) ∧
    (pkgExec text ≠ none → parseProto text = Except.error JsErr.rpcError) := by
  unfold parseProto
  cases hp : pkgExec text with
  | none =>
    have h := parseGo_error_of_bad_block (serviceMatches text) "" [] nm m0 hmem hr
    exact ⟨h.1, fun hne => absurd rfl hne⟩
  | some p =>
    have hne : p ≠ "" := pkgExec_some_ne_empty hp
    have h := parseGo_error_of_bad_block (serviceMatches text) p [] nm m0 hmem hr
    exact ⟨h.1, fun _ => h.2 hne⟩

def noRpcProto : String := "package P;\nservice Empty \x7b\n\x7d\n\x7d\n"

def noRpcBlock : String := "service Empty \x7b\n\x7d\n\x7d"

theorem service_without_rpcs_parse_fails_witness :
    parseProto noRpcProto.data = Except.error JsErr.rpcError :=
  (service_without_rpcs_parse_fails noRpcProto.data ("Empty") noRpcBlock.data
    (by decide) (by decide)).2 (by decide)

end Gen

namespace Gen

/-- Lemma: `pkgExec` finds nothing exactly when the package pattern matches at
no start position. -/
theorem pkgExec_none_iff : ∀ l : List Char,
    pkgExec l = none ↔ ∀ i, pkgMatchAt (l.drop i) = none
  | [] => by
    constructor
    · intro _ i
      cases i <;> rfl
    · intro _
      rfl
  | c :: cs => by
    have ih := pkgExec_none_iff cs
    constructor
    · intro h i
      unfold pkgExec at h
      cases hm : pkgMatchAt (c :: cs) with
      | some s => rw [hm] at h; cases h
      | none =>
        rw [hm] at h
        cases i with
        | zero => exact hm
        | succ j => exact ih.1 h j
    · intro h
      have h0 : pkgMatchAt (c :: cs) = none := h 0
      unfold pkgExec
      rw [h0]
      exact ih.2 (fun j => h (j + 1))

/-- Lemma: `pkgExec` returns the capture of the match at the least start
position at which the pattern matches. -/
theorem pkgExec_first_match : ∀ (l : List Char) (i : Nat) (s : String),
    pkgMatchAt (l.drop i) = some s →
    (∀ j, j < i → pkgMatchAt (l.drop j) = none) →
    pkgExec l = some s
  | [], i, s, hm, _ => by
    have h0 : pkgMatchAt ([] : List Char) = some s := by
      cases i with
      | zero => exact hm
      | succ j => exact hm
    cases h0
  | c :: cs, 0, s, hm, _ => by
    have h0 : pkgMatchAt (c :: cs) = some s := hm
    unfold pkgExec
    rw [h0]
  | c :: cs, i + 1, s, hm, hj => by
    have h0 : pkgMatchAt (c :: cs) = none := hj 0 (Nat.succ_pos i)
    unfold pkgExec
    rw [h0]
    exact pkgExec_first_match cs i s hm (fun j hjt => hj (j + 1) (Nat.succ_lt_succ hjt))

def rePkgText : String := "xx repackage Foo rest"

/-- C10: the extracted package name is the `\w+` capture after the
FIRST occurrence, anywhere in the text, of `package` followed by
whitespace; the scan is not anchored to a declaration position or a
word boundary (an occurrence inside `repackage` also matches), and when
no position matches the name stays empty at that stage (so a
service-free parse returns an empty packageName). -/
theorem package_scan_first_unanchored :
    (∀ l : List Char, pkgExec l = none ↔ ∀ i, pkgMatchAt (l.drop i) = none) ∧
    (∀ (l : List Char) (i : Nat) (s : String),
      pkgMatchAt (l.drop i) = some s →
      (∀ j, j < i → pkgMatchAt (l.drop j) = none) →
      pkgExec l = some s) ∧
    pkgExec rePkgText.data = some "Foo" ∧
    (∀ l : List Char, pkgExec l = none → serviceMatches l = [] →
      parseProto l = Except.ok ⟨"", []⟩) := by
  refine ⟨pkgExec_none_iff, pkgExec_first_match, rfl, ?_⟩
  intro l hp hs
  have h := parseProto_no_service l hs
  rw [hp] at h
  exact h

def pkgAtThree : String := "xy package foo!"

theorem package_scan_first_unanchored_witness :
    pkgExec pkgAtThree.data = some "foo" :=
  package_scan_first_unanchored.2.1 pkgAtThree.data 3 ("foo") rfl (by decide)

end Gen

namespace Gen

/-- C7: the rendered import list is the set of inType/outType
identifiers of the rpc list with duplicates removed and sorted
ascending; permuting the rpc list leaves the rendered import text
byte-identical, and the resolution applied to its own output changes
nothing. -/
theorem import_resolution_order_independent_idempotent
    (srv : ProtoService) (genLib : String) (rpcs2 : List ProtoRpc)
    (hperm : srv.rpcs.Perm rpcs2) :
    generateServiceImports srv genLib =
      generateServiceImports ⟨srv.name, rpcs2⟩ genLib ∧
    (resolveTypes (collectTypes srv.rpcs)).Sorted (· ≤ ·) ∧
    (resolveTypes (collectTypes srv.rpcs)).Nodup ∧
    (∀ t, t ∈ resolveTypes (collectTypes srv.rpcs) ↔
      ∃ r ∈ srv.rpcs, t = r.inType ∨ t = r.outType) ∧
    resolveTypes (resolveTypes (collectTypes srv.rpcs)) =
      resolveTypes (collectTypes srv.rpcs) ∧
    generateImport (collectTypes srv.rpcs) genLib =
      "import \x7b " ++ String.intercalate ", " (resolveTypes (collectTypes srv.rpcs)) ++
        " \x7d from \"./" ++ genLib ++ ".js\";" := by
  refine ⟨?_, resolveTypes_sorted _, resolveTypes_nodup _, ?_,
    resolveTypes_idem _, rfl⟩
  · show generateImport (collectTypes srv.rpcs) genLib =
      generateImport (collectTypes rpcs2) genLib
    unfold generateImport
    have hc : resolveTypes (collectTypes srv.rpcs) =
        resolveTypes (collectTypes rpcs2) :=
      resolveTypes_perm (List.Perm.flatMap_right _ hperm)
    rw [hc]
  · intro t
    rw [mem_resolveTypes]
    unfold collectTypes
    rw [List.mem_flatMap]
    constructor
    · rintro ⟨r, hr, ht⟩
      simp only [List.mem_cons, List.not_mem_nil, or_false] at ht
      rcases ht with h | h
      · exact ⟨r, hr, Or.inr h⟩
      · exact ⟨r, hr, Or.inl h⟩
    · rintro ⟨r, hr, h⟩
      refine ⟨r, hr, ?_⟩
      rcases h with h | h <;> simp [h]

def impSrvA : ProtoService := ⟨"S", [⟨"A", "T1", "T2"⟩, ⟨"B", "T2", "T3"⟩]⟩

def impRpcsB : List ProtoRpc := [⟨"B", "T2", "T3"⟩, ⟨"A", "T1", "T2"⟩]

theorem import_resolution_order_independent_idempotent_witness :
    generateServiceImports impSrvA genLibC =
      generateServiceImports ⟨impSrvA.name, impRpcsB⟩ genLibC :=
  (import_resolution_order_independent_idempotent impSrvA genLibC impRpcsB
    (by decide)).1

end Gen

namespace Gen

/-- Appending a fixed suffix to a string is injective. -/
theorem append_right_injective (t : String) :
    Function.Injective (fun s : String => s ++ t) := by
  intro a b hab
  have hd : a.data ++ t.data = b.data ++ t.data := by
    have h1 := congrArg String.data hab
    simpa [String.data_append] using h1
  have hde : a.data = b.data := List.append_cancel_right hd
  obtain ⟨da⟩ := a
  obtain ⟨db⟩ := b
  exact congrArg String.mk hde

/-- C8: the emitted handler-stub text is the namespace scope named after
the service enclosing the joined handler stubs; there is one stub per
rpc, each the exact template `export function <name>Handler(r: <inType>):
Promise<outType>` with an unconditional not-implemented rejection, and
when rpc names are unique there is exactly one function per rpc name. -/
theorem stub_emitter_handlers_in_namespace (srv : ProtoService)
    (genLib : String) (hne : srv.rpcs ≠ []) :
    generateStubsText srv genLib =
      "// edit your services here" ++ "\n" ++
        generateServiceImports srv genLib ++ "\n" ++
        ("export namespace " ++ srv.name ++ " \x7b") ++ "\n" ++
        joinNL (srv.rpcs.map generateHandler) ++ "\n" ++ "\x7d" ∧
    (srv.rpcs.map generateHandler).length = srv.rpcs.length ∧
    (∀ h, h ∈ srv.rpcs → generateHandler h =
      "\n    export function " ++ h.name ++ "Handler(r: " ++ h.inType ++
        "): Promise<" ++ h.outType ++
        ">\x7b\n        // add your code here\n        return Promise.reject(new Error(\"not implemented\"));\n    \x7d\n") ∧
    (∀ h, h ∈ srv.rpcs →
      (srv.rpcs.map (fun r => r.name ++ "Handler")).count (h.name ++ "Handler") =
        (srv.rpcs.map ProtoRpc.name).count h.name) ∧
    ((srv.rpcs.map ProtoRpc.name).Nodup → ∀ h, h ∈ srv.rpcs →
      (srv.rpcs.map (fun r => r.name ++ "Handler")).count (h.name ++ "Handler") = 1) := by
  have hM : srv.rpcs.map generateHandler ≠ [] := by
    simpa using hne
  have hcount : ∀ h : ProtoRpc,
      (srv.rpcs.map (fun r => r.name ++ "Handler")).count (h.name ++ "Handler") =
        (srv.rpcs.map ProtoRpc.name).count h.name := by
    intro h
    have hmm : srv.rpcs.map (fun r => r.name ++ "Handler") =
        (srv.rpcs.map ProtoRpc.name).map (fun s => s ++ "Handler") := by
      rw [List.map_map]
      rfl
    rw [hmm]
    exact List.count_map_of_injective _ _ (append_right_injective _) _
  refine ⟨?_, by simp, fun h _ => rfl, fun h _ => hcount h, ?_⟩
  · unfold generateStubsText generateStubsSections
    rw [List.append_assoc]
    rw [joinNL_append (by simp) (by simp), joinNL_append hM (by simp)]
    simp [joinNL, String.append_assoc]
  · intro hnd h hh
    rw [hcount h]
    exact List.count_eq_one_of_mem hnd (List.mem_map_of_mem _ hh)

theorem stub_emitter_handlers_in_namespace_witness :
    generateStubsText calcService genLibC =
      "// edit your services here" ++ "\n" ++
        generateServiceImports calcService genLibC ++ "\n" ++
        ("export namespace " ++ calcService.name ++ " \x7b") ++ "\n" ++
        joinNL (calcService.rpcs.map generateHandler) ++ "\n" ++ "\x7d" :=
  (stub_emitter_handlers_in_namespace calcService genLibC (by decide)).1

end Gen

namespace Gen

/-- The full subject under which the wiring registers an rpc endpoint:
`generateMain` adds a group named `srv.name` (`groupLine`, src lines
254-256) and `addEndpoint` registers the endpoint under `h.name` inside
that group, and the transport addresses a grouped endpoint as
`<group>.<name>`. -/
def wiringSubject (srv : ProtoService) (h : ProtoRpc) : String :=
  srv.name ++ "." ++ h.name

/-- The subject the generated client requests: the first argument of
`nc.request` in `clientMethod` (src/generator.ts line 333). -/
def clientSubject (srv : ProtoService) (rpc : ProtoRpc) : String :=
  srv.name ++ "." ++ rpc.name

/-- C1: for every service and rpc of the model, the three emitters use
the same names: the wiring module adds a group named after the service
and registers the endpoint under the rpc name (full subject
`<service>.<rpc>`), which is exactly the subject the client requests
from a method named exactly the rpc name, and the wiring invokes
`<service>.<rpcName>Handler`, exactly the function the stub file
defines inside the namespace named after the service. -/
theorem naming_roundtrip_consistent (parse : ProtoParse) (genLib : String)
    (srv : ProtoService) (rpc : ProtoRpc)
    (hs : srv ∈ parse.services) (hr : rpc ∈ srv.rpcs) :
    wiringSubject srv rpc = clientSubject srv rpc ∧
    (∃ a b, generateMainText parse genLib =
      a ++ (" = srv.addGroup(\"" ++ srv.name ++ "\");") ++ b) ∧
    (∃ a b, generateMainText parse genLib =
      a ++ (".addEndpoint(\"" ++ rpc.name ++ "\"") ++ b) ∧
    (∃ a b, generateMainText parse genLib =
      a ++ (srv.name ++ "." ++ rpc.name ++ "Handler(input)") ++ b) ∧
    (∃ a b, generateClientText parse genLib =
      a ++ ("  async " ++ rpc.name ++ "(data: " ++ rpc.inType ++ "): Promise<" ++
        rpc.outType ++ "> \x7b\n    const r = await this.nc.request(\"" ++
        clientSubject srv rpc ++ "\",") ++ b) ∧
    (∃ a b, generateStubsText srv genLib =
      a ++ ("export namespace " ++ srv.name ++ " \x7b") ++ b) ∧
    (∃ a b, generateStubsText srv genLib =
      a ++ ("export function " ++ rpc.name ++ "Handler(r: " ++ rpc.inType ++ ")") ++ b) := by
  have spA : ("\", (err, m) => \x7b\n  // if we get an error from the subscription, stop\n  if(err) \x7b\n    srv.stop(err);\n    return;\n  \x7d\n  const input = " : String) =
      "\"" ++ ", (err, m) => \x7b\n  // if we get an error from the subscription, stop\n  if(err) \x7b\n    srv.stop(err);\n    return;\n  \x7d\n  const input = " := rfl
  have spB : ("Handler(input)\n    .then((o) => \x7b\n      m.respond(" : String) =
      "Handler(input)" ++ "\n    .then((o) => \x7b\n      m.respond(" := rfl
  have spC : ("\", " : String) = "\"," ++ " " := rfl
  have spD : ("\n    export function " : String) = "\n    " ++ "export function " := rfl
  have spF : ("): Promise<" : String) = ")" ++ ": Promise<" := rfl
  have hGroup : groupLine srv ∈ generateMainSections parse genLib := by
    unfold generateMainSections
    apply List.mem_append_right
    exact List.mem_flatMap.2 ⟨srv, hs, List.mem_cons_self _ _⟩
  have hEnd : addEndpoint srv rpc ∈ generateMainSections parse genLib := by
    unfold generateMainSections
    apply List.mem_append_right
    exact List.mem_flatMap.2 ⟨srv, hs,
      List.mem_cons_of_mem _ (List.mem_map_of_mem _ hr)⟩
  have hCli : clientMethod srv rpc ∈ generateClientSections parse genLib := by
    unfold generateClientSections
    apply List.mem_append_right
    exact List.mem_flatMap.2 ⟨srv, hs,
      List.mem_cons_of_mem _ (List.mem_append_left _ (List.mem_map_of_mem _ hr))⟩
  have hNs : ("export namespace " ++ srv.name ++ " \x7b") ∈
      generateStubsSections srv genLib := by
    unfold generateStubsSections
    apply List.mem_append_left
    apply List.mem_append_left
    simp
  have hHd : generateHandler rpc ∈ generateStubsSections srv genLib := by
    unfold generateStubsSections
    apply List.mem_append_left
    apply List.mem_append_right
    exact List.mem_map_of_mem _ hr
  have h1 : groupLine srv =
      ("const " ++ jsToLower srv.name) ++
        (" = srv.addGroup(\"" ++ srv.name ++ "\");") ++ "" := by
    simp only [groupLine, String.append_assoc, String.append_empty]
  have h2 : addEndpoint srv rpc =
      jsToLower srv.name ++ (".addEndpoint(\"" ++ rpc.name ++ "\"") ++
        (", (err, m) => \x7b\n  // if we get an error from the subscription, stop\n  if(err) \x7b\n    srv.stop(err);\n    return;\n  \x7d\n  const input = " ++
          rpc.inType ++ ".decode(m?.data);\n  " ++ srv.name ++ "." ++ rpc.name ++
          "Handler(input)\n    .then((o) => \x7b\n      m.respond(" ++ rpc.outType ++
          ".encode(o).finish())\n    \x7d)\n    .catch((err) => \x7b\n      m.respondError(500, err.message);\n    \x7d);\n\x7d);\n") := by
    simp only [addEndpoint]
    rw [spA]
    simp only [String.append_assoc]
  have h3 : addEndpoint srv rpc =
      (jsToLower srv.name ++ ".addEndpoint(\"" ++ rpc.name ++
        "\", (err, m) => \x7b\n  // if we get an error from the subscription, stop\n  if(err) \x7b\n    srv.stop(err);\n    return;\n  \x7d\n  const input = " ++
        rpc.inType ++ ".decode(m?.data);\n  ") ++
      (srv.name ++ "." ++ rpc.name ++ "Handler(input)") ++
      ("\n    .then((o) => \x7b\n      m.respond(" ++ rpc.outType ++
        ".encode(o).finish())\n    \x7d)\n    .catch((err) => \x7b\n      m.respondError(500, err.message);\n    \x7d);\n\x7d);\n") := by
    simp only [addEndpoint]
    rw [spB]
    simp only [String.append_assoc]
  have h4 : clientMethod srv rpc =
      "" ++ ("  async " ++ rpc.name ++ "(data: " ++ rpc.inType ++ "): Promise<" ++
        rpc.outType ++ "> \x7b\n    const r = await this.nc.request(\"" ++
        clientSubject srv rpc ++ "\",") ++
      (" " ++ rpc.inType ++ ".encode(data).finish());\n    return " ++ rpc.outType ++
        ".decode(r.data);\n  \x7d\n") := by
    simp only [clientMethod, clientSubject]
    rw [spC]
    simp only [String.append_assoc, String.empty_append]
  have h5 : ("export namespace " ++ srv.name ++ " \x7b") =
      "" ++ ("export namespace " ++ srv.name ++ " \x7b") ++ "" := by
    simp only [String.empty_append, String.append_empty]
  have h6 : generateHandler rpc =
      "\n    " ++ ("export function " ++ rpc.name ++ "Handler(r: " ++
        rpc.inType ++ ")") ++
      (": Promise<" ++ rpc.outType ++
        ">\x7b\n        // add your code here\n        return Promise.reject(new Error(\"not implemented\"));\n    \x7d\n") := by
    simp only [generateHandler]
    rw [spD, spF]
    simp only [String.append_assoc]
  exact ⟨rfl, joinNL_contains hGroup h1, joinNL_contains hEnd h2,
    joinNL_contains hEnd h3, joinNL_contains hCli h4,
    joinNL_contains hNs h5, joinNL_contains hHd h6⟩

theorem naming_roundtrip_consistent_witness :
    wiringSubject calcService addRpc = clientSubject calcService addRpc ∧
    (∃ a b, generateMainText calcParse genLibC =
      a ++ (".addEndpoint(\"" ++ addRpc.name ++ "\"") ++ b) :=
  ⟨(naming_roundtrip_consistent calcParse genLibC calcService addRpc
      (by decide) (by decide)).1,
   (naming_roundtrip_consistent calcParse genLibC calcService addRpc
      (by decide) (by decide)).2.2.1⟩

end Gen

namespace Gen

def oldHandlers : String := "// my edited handlers"

def stubPathC : String := "generated/calc_handlers.ts"

def bakPathC : String := "generated/calc_handlers.bak"

/-- A prior forced run left the stub at the lowercased path; the user
edited it. -/
def c4FS : FS := ⟨[outDirC], [(stubPathC, FileData.text oldHandlers)]⟩

def c4Run : FS × Option RunErr := runGen c4FS outDirC protoNameC genLibC calcProto true

/-- C4: a forced re-run over a tree holding an edited stub for service
`Calc` creates NO `.bak` file and silently overwrites the stub: the
backup existence check of src/generator.ts line 45 probes
`Calc_handlers.ts` (original casing) while `generateStubs` writes
`calc_handlers.ts` (lowercased), so for any service name that is not
already all-lowercase the probed path never exists and the promised
backup-then-overwrite does not happen. -/
theorem forced_run_capitalized_service_no_backup :
    c4Run.2 = none ∧
    c4Run.1.files.lookup bakPathC = none ∧
    c4Run.1.files.lookup stubPathC =
      some (FileData.text (generateStubsText calcService genLibC)) ∧
    generateStubsText calcService genLibC ≠ oldHandlers ∧
    statExists c4FS (joinPath outDirC (calcService.name ++ ("_handlers.ts"))) = false ∧
    statExists c4FS stubPathC = true :=
  ⟨rfl, rfl, rfl, by decide, rfl, rfl⟩

def twoSvcProto : String :=
  "package Api;\nservice A \x7b\n  rpc X(XReq) returns (XRes) \x7b\x7d\n\x7d\n\x7d\nservice B \x7b\n  rpc Y(YReq) returns (YRes) \x7b\x7d\n\x7d\n\x7d\n"

def c9FS : FS := ⟨[], []⟩

def c9Run : FS × Option RunErr := runGen c9FS outDirC protoNameC genLibC twoSvcProto false

def pkgJsonPath : String := "generated/package.json"

def protocCmd : String :=
  "protoc --plugin=./node_modules/.bin/protoc-gen-ts_proto --ts_proto_opt=importSuffix=.js --ts_proto_opt=esModuleInterop=true --ts_proto_out=. ./calc.proto"

def testCmd : String := "echo \"Error: no test specified\" && exit 1"

/-- C9: the manifest of the primary generator lists all three dependencies
(schema compiler ts-proto, transport nats, toolchain typescript) and a
build script that runs protoc and then tsc, and a run over a two-service
schema writes the manifest exactly once, with contents independent of
the services; but the manifest of the per-service variant
(src/unnamed/part_000 lines 254-257) omits the `nats` transport
dependency even though the wiring it emits imports from `"nats"`, so
the claim fails on that variant. -/
theorem node_package_dependencies_eval :
    Jval.getField (nodePackage protoNameC) ("dependencies") =
      some (Jval.obj [("ts-proto", Jval.str "^1.137.0"),
        ("typescript", Jval.str "^4.9.4"), ("nats", Jval.str "^2.13.1")]) ∧
    Jval.getField (Part000.nodePackage protoNameC) ("dependencies") =
      some (Jval.obj [("ts-proto", Jval.str "^1.137.0"),
        ("typescript", Jval.str "^4.9.4")]) ∧
    (Jval.getField (Part000.nodePackage protoNameC) ("dependencies")).map
      (fun d => Jval.getField d ("nats")) = some none ∧
    Jval.getField (nodePackage protoNameC) ("scripts") =
      some (Jval.obj [("build", Jval.str (protocCmd ++ " && tsc")),
        ("test", Jval.str testCmd)]) ∧
    c9Run.2 = none ∧
    c9Run.1.files.lookup pkgJsonPath = some (FileData.json (nodePackage protoNameC)) ∧
    (c9Run.1.files.map Prod.fst).count pkgJsonPath = 1 :=
  ⟨rfl, rfl, rfl, rfl, rfl, rfl, rfl⟩

end Gen
